import Mathlib

/-!
Shallow embedding of the qpdf WASM wrapper layer:
the JavaScript façade in `src/wasm/qpdf.mjs` together with the C glue
`qpdf_wasm.c` that it calls through `cwrap`.

The wrapped native qpdf library lives behind the WASM boundary (it is
shipped as a compiled binary, not as source).  It is modelled as an
oracle (`Native`): a record of the outcomes of the boundary calls a
single façade invocation performs.  Status-returning processing calls
(`qpdf_read_memory`, `qpdf_init_write_memory`, `qpdf_write`,
`qpdf_check_pdf`) may either return a status (`Except.ok`) or raise a
raw trap value crossing the boundary (`Except.error`, carried as a bare
integer, the way a non-Error value surfaces from WASM).  Query and
setter calls are total.

Each façade operation is embedded as a function returning its
JavaScript-level result (`Except JSException α`: `.ok` = normal return,
`.error` = a raised value) together with the trace of boundary calls it
performed, in order.  The `try { body } finally { _free; _cleanup }`
structure of the source is mirrored by appending the `free`/`cleanup`
events to every branch of the body, raising or not.
-/

/-- A boundary call observable at the JS/WASM edge.  Arguments recorded are
exactly the ones the JavaScript passes. -/
inductive BEvent where
  | init (handle : Nat)
  | malloc (len ptr : Nat)
  | free (ptr : Nat)
  | cleanup (handle : Nat)
  | readMemory (handle ptr size : Nat) (password : Option String)
  | hasError (handle : Nat)
  | getErrorText (handle : Nat)
  | initWriteMemory (handle : Nat)
  | write (handle : Nat)
  | checkStructure (handle : Nat)
  | setLinearize (handle v : Nat)
  | setCompress (handle v : Nat)
  | setPreserveEnc (handle v : Nat)
  | setDetId (handle v : Nat)
  | setQdf (handle v : Nat)
  | getPdfVersion (handle : Nat)
  | getNumPages (handle : Nat)
  | isEncrypted (handle : Nat)
  | isLinearized (handle : Nat)
  | getInfoKeyCall (handle : Nat) (key : String)
  | getBufferLength (handle : Nat)
  | getBuffer (handle : Nat)
  deriving DecidableEq

/-- A value raised by JavaScript code: either a structured `Error` with a
message (`throw new Error(msg)`), or a raw non-Error trap value (a bare
number) that crossed the WASM boundary. -/
inductive JSException where
  | error (msg : String)
  | raw (v : Int)
  deriving DecidableEq

/-- Result record of `getInfo`. -/
structure InfoResult where
  version : String
  pages : Int
  encrypted : Bool
  linearized : Bool
  deriving DecidableEq

/-- Result record of `checkPdf`. -/
structure CheckResult where
  ok : Bool
  error : Option String
  deriving DecidableEq

/-- The `options` object accepted by `processPdf`.  A field that is
`none` corresponds to the JavaScript field being `undefined` (absent). -/
structure PdfOptions where
  password : Option String := none
  linearize : Option Bool := none
  compress : Option Bool := none
  preserveEncryption : Option Bool := none
  deterministicId : Option Bool := none
  qdfMode : Option Bool := none

/-- Oracle for the native qpdf library behind the WASM boundary, as seen
by one façade invocation (each invocation opens a fresh session).
Error state is session-scoped and overwritten by each fallible call, so
it is recorded per call site: `errAfterLoad` is the session's pending
error (some text = set, none = clear) right after the load call,
and similarly for the other fallible calls.  Status calls return
`Except Int Int`: `.ok rc` is a returned status, `.error t` is a raw
trap value `t` thrown across the boundary. -/
structure Native where
  handle : Nat
  mallocPtr : Nat → Nat
  readMemory : Nat → Nat → Nat → String → Except Int Int
  errAfterLoad : Option String
  initWrite : Nat → Except Int Int
  errAfterInitWrite : Option String
  write : Nat → Except Int Int
  errAfterWrite : Option String
  checkRc : Nat → Except Int Int
  errAfterCheck : Option String
  getPdfVersion : Nat → String
  getNumPages : Nat → Int
  isEncrypted : Nat → Int
  isLinearized : Nat → Int
  getInfoKey : Nat → String → Option String
  getBufferLength : Nat → Nat
  getBufferPtr : Nat → Nat
  heap : Nat → Nat

/-- C glue `qpdf_wasm_init`: calls `qpdf_init` and silences errors;
returns the fresh session handle. -/
def qpdf_wasm_init (N : Native) : Nat := N.handle

/-- A call into the native library proper (below the C glue). -/
inductive NativeCall where
  | qpdf_cleanup (handle : Nat)
  deriving DecidableEq

/-- C glue `qpdf_wasm_cleanup`: `if (qpdf) { qpdf_cleanup(&qpdf); }` —
the native cleanup is invoked only for a non-null handle.  The returned
list is the sequence of native calls performed. -/
def qpdf_wasm_cleanup (qpdf : Nat) : List NativeCall :=
  if qpdf ≠ 0 then [NativeCall.qpdf_cleanup qpdf] else []

/-- C glue `qpdf_wasm_read_memory`: forwards to
`qpdf_read_memory(qpdf, "input.pdf", buffer, size, password ? password : "")`
— a null password (JS `null` arriving as C `NULL`) is mapped to `""`. -/
def qpdf_wasm_read_memory (N : Native) (handle ptr size : Nat)
    (password : Option String) : Except Int Int :=
  N.readMemory handle ptr size (password.getD "")

/-- C glue `qpdf_wasm_get_error_full_text` over the session's pending error
state: `qpdf_error e = qpdf_get_error(qpdf); if (!e) return ""; ...` —
yields `""` when no error object is pending, else its full text. -/
def qpdf_wasm_get_error_full_text (errState : Option String) : String :=
  errState.getD ""

/-- C glue `qpdf_wasm_has_error` over the session's pending error state. -/
def qpdf_wasm_has_error (errState : Option String) : Int :=
  if errState.isSome then 1 else 0

/-- JavaScript `s || fallback` on strings: the empty string is falsy. -/
def jsOrString (s fallback : String) : String :=
  if s = "" then fallback else s

/-- JavaScript `password || null` on an optional string: `undefined` and
`""` (both falsy) become `null`; any other string passes through. -/
def jsOrNull (password : Option String) : Option String :=
  match password with
  | none => none
  | some s => if s = "" then none else some s

/-- JavaScript view of a `cwrap`-ed `"string"` return value: a NULL
`char*` (here `none`) surfaces as `""`. -/
def cwrapString (v : Option String) : String := v.getD ""

/-- Helper `throwIfError` of `qpdf.mjs`:
`if (_hasError(handle)) { const msg = _getErrorText(handle); throw ... }`.
Returns the raised/normal outcome together with the boundary calls made.
`errState` is the session's pending error at this point. -/
def throwIfError (handle : Nat) (errState : Option String) :
    Except JSException Unit × List BEvent :=
  if qpdf_wasm_has_error errState ≠ 0 then
    (Except.error (JSException.error
        ("qpdf error: " ++ qpdf_wasm_get_error_full_text errState)),
     [BEvent.hasError handle, BEvent.getErrorText handle])
  else
    (Except.ok (), [BEvent.hasError handle])

/-- The four attribute reads of `getInfo` on a loaded session. -/
def readAttrs (N : Native) (handle : Nat) : InfoResult :=
  { version := N.getPdfVersion handle
    pages := N.getNumPages handle
    encrypted := N.isEncrypted handle != 0
    linearized := N.isLinearized handle != 0 }

/-- Boundary events of the four attribute reads. -/
def attrEvents (handle : Nat) : List BEvent :=
  [BEvent.getPdfVersion handle, BEvent.getNumPages handle,
   BEvent.isEncrypted handle, BEvent.isLinearized handle]

/-- Façade `getInfo(pdfBytes, password)` of `qpdf.mjs`:
open, copy in, load; `if (rc !== 0) throwIfError(handle);` then read the
four attributes; `finally { _free(ptr); _cleanup(handle); }`. -/
def getInfo (N : Native) (pdfBytes : List Nat) (password : Option String) :
    Except JSException InfoResult × List BEvent :=
  let handle := qpdf_wasm_init N
  let ptr := N.mallocPtr pdfBytes.length
  let rme := BEvent.readMemory handle ptr pdfBytes.length (jsOrNull password)
  let body : Except JSException InfoResult × List BEvent :=
    match qpdf_wasm_read_memory N handle ptr pdfBytes.length
        (jsOrNull password) with
    | Except.error t => (Except.error (JSException.raw t), [rme])
    | Except.ok rc =>
      match (if rc ≠ 0 then throwIfError handle N.errAfterLoad
             else (Except.ok (), [])) with
      | (Except.error e, evs) => (Except.error e, rme :: evs)
      | (Except.ok _, evs) =>
          (Except.ok (readAttrs N handle),
           rme :: evs ++ attrEvents handle)
  (body.1,
   BEvent.init handle :: BEvent.malloc pdfBytes.length ptr :: body.2
     ++ [BEvent.free ptr, BEvent.cleanup handle])

/-- Façade `getInfoKey(pdfBytes, key, password)` of `qpdf.mjs`:
open, copy in, load; `if (rc !== 0) throwIfError(handle);` then
`const val = _getInfoKey(handle, key); return val || null;` with the
same `finally` block. -/
def getInfoKey (N : Native) (pdfBytes : List Nat) (key : String)
    (password : Option String) :
    Except JSException (Option String) × List BEvent :=
  let handle := qpdf_wasm_init N
  let ptr := N.mallocPtr pdfBytes.length
  let rme := BEvent.readMemory handle ptr pdfBytes.length (jsOrNull password)
  let body : Except JSException (Option String) × List BEvent :=
    match qpdf_wasm_read_memory N handle ptr pdfBytes.length
        (jsOrNull password) with
    | Except.error t => (Except.error (JSException.raw t), [rme])
    | Except.ok rc =>
      match (if rc ≠ 0 then throwIfError handle N.errAfterLoad
             else (Except.ok (), [])) with
      | (Except.error e, evs) => (Except.error e, rme :: evs)
      | (Except.ok _, evs) =>
          let val := cwrapString (N.getInfoKey handle key)
          (Except.ok (if val = "" then none else some val),
           rme :: evs ++ [BEvent.getInfoKeyCall handle key])
  (body.1,
   BEvent.init handle :: BEvent.malloc pdfBytes.length ptr :: body.2
     ++ [BEvent.free ptr, BEvent.cleanup handle])

/-- The option-application block of `processPdf` (lines 269-279 of
`qpdf.mjs`): each setter is called exactly when its field is not
`undefined`, with argument `field ? 1 : 0`, in source order. -/
def setterEventsOf (handle : Nat) (o : PdfOptions) : List BEvent :=
  (match o.linearize with
   | some b => [BEvent.setLinearize handle (if b then 1 else 0)]
   | none => []) ++
  (match o.compress with
   | some b => [BEvent.setCompress handle (if b then 1 else 0)]
   | none => []) ++
  (match o.preserveEncryption with
   | some b => [BEvent.setPreserveEnc handle (if b then 1 else 0)]
   | none => []) ++
  (match o.deterministicId with
   | some b => [BEvent.setDetId handle (if b then 1 else 0)]
   | none => []) ++
  (match o.qdfMode with
   | some b => [BEvent.setQdf handle (if b then 1 else 0)]
   | none => [])

/-- Façade `processPdf(pdfBytes, options)` of `qpdf.mjs`:
open, copy in, load, prepare output in memory, apply present option
fields, write, then copy the output buffer out of the WASM heap; the
`finally` block frees the input copy and closes the session on every
path. -/
def processPdf (N : Native) (pdfBytes : List Nat) (options : PdfOptions) :
    Except JSException (List Nat) × List BEvent :=
  let handle := qpdf_wasm_init N
  let ptr := N.mallocPtr pdfBytes.length
  let rme := BEvent.readMemory handle ptr pdfBytes.length
      (jsOrNull options.password)
  let body : Except JSException (List Nat) × List BEvent :=
    match qpdf_wasm_read_memory N handle ptr pdfBytes.length
        (jsOrNull options.password) with
    | Except.error t => (Except.error (JSException.raw t), [rme])
    | Except.ok rc =>
      match (if rc ≠ 0 then throwIfError handle N.errAfterLoad
             else (Except.ok (), [])) with
      | (Except.error e, evs1) => (Except.error e, rme :: evs1)
      | (Except.ok _, evs1) =>
        match N.initWrite handle with
        | Except.error t =>
            (Except.error (JSException.raw t),
             rme :: evs1 ++ [BEvent.initWriteMemory handle])
        | Except.ok wrc =>
          match (if wrc ≠ 0 then throwIfError handle N.errAfterInitWrite
                 else (Except.ok (), [])) with
          | (Except.error e, evs2) =>
              (Except.error e,
               rme :: evs1 ++ BEvent.initWriteMemory handle :: evs2)
          | (Except.ok _, evs2) =>
            let setEvs := setterEventsOf handle options
            match N.write handle with
            | Except.error t =>
                (Except.error (JSException.raw t),
                 rme :: evs1 ++ BEvent.initWriteMemory handle :: evs2
                   ++ setEvs ++ [BEvent.write handle])
            | Except.ok writeRc =>
              match (if writeRc ≠ 0 then throwIfError handle N.errAfterWrite
                     else (Except.ok (), [])) with
              | (Except.error e, evs3) =>
                  (Except.error e,
                   rme :: evs1 ++ BEvent.initWriteMemory handle :: evs2
                     ++ setEvs ++ BEvent.write handle :: evs3)
              | (Except.ok _, evs3) =>
                let len := N.getBufferLength handle
                let outPtr := N.getBufferPtr handle
                let output := (List.range len).map
                    (fun i => N.heap (outPtr + i))
                (Except.ok output,
                 rme :: evs1 ++ BEvent.initWriteMemory handle :: evs2
                   ++ setEvs ++ BEvent.write handle :: evs3
                   ++ [BEvent.getBufferLength handle, BEvent.getBuffer handle])
  (body.1,
   BEvent.init handle :: BEvent.malloc pdfBytes.length ptr :: body.2
     ++ [BEvent.free ptr, BEvent.cleanup handle])

/-- Façade `checkPdf(pdfBytes, password)` of `qpdf.mjs`: open, copy in,
load; a non-zero load status returns
`{ok:false, error: _getErrorText(handle) || "Failed to read PDF"}` as
data; else run the structural check; a non-zero check status returns
`{ok:false, error: _getErrorText(handle) || "PDF check failed"}`; else
`{ok:true, error:null}`; same `finally` block. -/
def checkPdf (N : Native) (pdfBytes : List Nat) (password : Option String) :
    Except JSException CheckResult × List BEvent :=
  let handle := qpdf_wasm_init N
  let ptr := N.mallocPtr pdfBytes.length
  let rme := BEvent.readMemory handle ptr pdfBytes.length (jsOrNull password)
  let body : Except JSException CheckResult × List BEvent :=
    match qpdf_wasm_read_memory N handle ptr pdfBytes.length
        (jsOrNull password) with
    | Except.error t => (Except.error (JSException.raw t), [rme])
    | Except.ok rc =>
      if rc ≠ 0 then
        (Except.ok
          { ok := false
            error := some (jsOrString
              (qpdf_wasm_get_error_full_text N.errAfterLoad)
              "Failed to read PDF") },
         [rme, BEvent.getErrorText handle])
      else
        match N.checkRc handle with
        | Except.error t =>
            (Except.error (JSException.raw t),
             [rme, BEvent.checkStructure handle])
        | Except.ok checkRc =>
          if checkRc ≠ 0 then
            (Except.ok
              { ok := false
                error := some (jsOrString
                  (qpdf_wasm_get_error_full_text N.errAfterCheck)
                  "PDF check failed") },
             [rme, BEvent.checkStructure handle, BEvent.getErrorText handle])
          else
            (Except.ok { ok := true, error := none },
             [rme, BEvent.checkStructure handle])
  (body.1,
   BEvent.init handle :: BEvent.malloc pdfBytes.length ptr :: body.2
     ++ [BEvent.free ptr, BEvent.cleanup handle])

/-- Recognizer for session-open events. -/
def isInitEv : BEvent → Bool
  | BEvent.init _ => true
  | _ => false

/-- Recognizer for session-close events. -/
def isCleanupEv : BEvent → Bool
  | BEvent.cleanup _ => true
  | _ => false

/-- Recognizer for input-buffer allocation events. -/
def isMallocEv : BEvent → Bool
  | BEvent.malloc _ _ => true
  | _ => false

/-- Recognizer for input-buffer release events. -/
def isFreeEv : BEvent → Bool
  | BEvent.free _ => true
  | _ => false

/-- Recognizer for load (`_readMemory`) events. -/
def isReadMemoryEv : BEvent → Bool
  | BEvent.readMemory _ _ _ _ => true
  | _ => false

/-- Recognizer for the four attribute-read events of `getInfo`. -/
def isAttrEv : BEvent → Bool
  | BEvent.getPdfVersion _ => true
  | BEvent.getNumPages _ => true
  | BEvent.isEncrypted _ => true
  | BEvent.isLinearized _ => true
  | _ => false

/-- Recognizer for `setLinearization` events. -/
def isSetLinearizeEv : BEvent → Bool
  | BEvent.setLinearize _ _ => true
  | _ => false

/-- Recognizer for `setCompressStreams` events. -/
def isSetCompressEv : BEvent → Bool
  | BEvent.setCompress _ _ => true
  | _ => false

/-- Recognizer for `setPreserveEncryption` events. -/
def isSetPreserveEncEv : BEvent → Bool
  | BEvent.setPreserveEnc _ _ => true
  | _ => false

/-- Recognizer for `setDeterministicId` events. -/
def isSetDetIdEv : BEvent → Bool
  | BEvent.setDetId _ _ => true
  | _ => false

/-- Recognizer for `setQdfMode` events. -/
def isSetQdfEv : BEvent → Bool
  | BEvent.setQdf _ _ => true
  | _ => false

/-- The trace discipline the leak property asks for: exactly one session
open, one session close, one input-buffer allocation and one release. -/
def lifecycleOk (tr : List BEvent) : Prop :=
  tr.countP isInitEv = 1 ∧ tr.countP isCleanupEv = 1 ∧
  tr.countP isMallocEv = 1 ∧ tr.countP isFreeEv = 1

/-- The size arguments of the load calls appearing in a trace, in order. -/
def readMemSizeArgs (tr : List BEvent) : List Nat :=
  tr.filterMap (fun e =>
    match e with
    | BEvent.readMemory _ _ size _ => some size
    | _ => none)

/-- High 32-bit half of a 64-bit size value. -/
def hiHalf (n : Nat) : Nat := n / 2 ^ 32

/-- One option field's setter obligation: present field ⇒ exactly one
matching setter call carrying `1`/`0` for `true`/`false`; absent field ⇒
no matching setter call at all. -/
def calledIffPresent (tr : List BEvent) (handle : Nat) (field : Option Bool)
    (mk : Nat → Nat → BEvent) (isE : BEvent → Bool) : Prop :=
  match field with
  | some b => tr.countP isE = 1 ∧ mk handle (if b then 1 else 0) ∈ tr
  | none => tr.countP isE = 0

/-- Modelled from the spec: the wrapped native qpdf library (shipped as
a compiled WASM binary, not present under `src/`) documents that the
load call "returns non-zero on failure" and that "on failure the
session's error state holds the explanation" — a non-zero load status
leaves the session's error state set. -/
def LoadErrorContract (N : Native) : Prop :=
  ∀ handle ptr size password rc,
    N.readMemory handle ptr size password = Except.ok rc → rc ≠ 0 →
      N.errAfterLoad.isSome = true

/-- Modelled from the spec: the wrapped native qpdf library (shipped as
a compiled WASM binary, not present under `src/`) guarantees that a
write that returns status zero has produced the serialized document in
the session's output buffer, whose length is therefore positive (a
serialized PDF is never empty). -/
def WriteOutputContract (N : Native) : Prop :=
  ∀ handle, N.write handle = Except.ok 0 → 0 < N.getBufferLength handle

/-- A concrete oracle on which every boundary call succeeds. -/
def okOracle : Native :=
  { handle := 1
    mallocPtr := fun _ => 100
    readMemory := fun _ _ _ _ => Except.ok 0
    errAfterLoad := none
    initWrite := fun _ => Except.ok 0
    errAfterInitWrite := none
    write := fun _ => Except.ok 0
    errAfterWrite := none
    checkRc := fun _ => Except.ok 0
    errAfterCheck := none
    getPdfVersion := fun _ => "1.7"
    getNumPages := fun _ => 3
    isEncrypted := fun _ => 0
    isLinearized := fun _ => 1
    getInfoKey := fun _ _ => none
    getBufferLength := fun _ => 4
    getBufferPtr := fun _ => 200
    heap := fun _ => 37 }

/-- A concrete oracle whose load call fails with status 2 and a pending
diagnostic, as for a truncated input. -/
def loadFailOracle : Native :=
  { okOracle with
    readMemory := fun _ _ _ _ => Except.ok 2
    errAfterLoad := some "damaged input" }

/-- A concrete oracle whose structural check fails with a pending
diagnostic. -/
def checkFailOracle : Native :=
  { okOracle with
    checkRc := fun _ => Except.ok 3
    errAfterCheck := some "file is not well formed" }

/-- A concrete oracle whose write call raises the bare trap value 7
across the boundary instead of returning a status. -/
def writeTrapOracle : Native :=
  { okOracle with write := fun _ => Except.error 7 }

/-- A concrete oracle that succeeds but reports a zero-length output
buffer. -/
def emptyBufferOracle : Native :=
  { okOracle with getBufferLength := fun _ => 0 }


/-- Recognizer for the body events that can occur between the load call
and the `finally` block: everything except the lifecycle events
(`init`/`malloc`/`free`/`cleanup`) and the load call itself. -/
def midEv : BEvent → Bool
  | BEvent.init _ => false
  | BEvent.malloc _ _ => false
  | BEvent.free _ => false
  | BEvent.cleanup _ => false
  | BEvent.readMemory _ _ _ _ => false
  | _ => true

/-- The events of a conditional `throwIfError` step all satisfy any
predicate that holds on `hasError` and `getErrorText` events. -/
theorem throwStep_all (p : BEvent → Bool) (c : Prop) [Decidable c]
    (handle : Nat) (errState : Option String)
    (h1 : ∀ h, p (BEvent.hasError h) = true)
    (h2 : ∀ h, p (BEvent.getErrorText h) = true) :
    ((if c then throwIfError handle errState
      else (Except.ok (), [])).2).all p = true := by
  split
  · unfold throwIfError
    split <;> simp [h1, h2]
  · simp

/-- Every event of the option-application block is a body event. -/
theorem setterEventsOf_all_midEv (handle : Nat) (o : PdfOptions) :
    (setterEventsOf handle o).all midEv = true := by
  unfold setterEventsOf
  rcases o.linearize with _ | b1 <;> rcases o.compress with _ | b2 <;>
    rcases o.preserveEncryption with _ | b3 <;>
    rcases o.deterministicId with _ | b4 <;>
    rcases o.qdfMode with _ | b5 <;>
    simp [midEv]

/-- A list of body events contributes nothing to the count of any
predicate that is false on body events. -/
theorem all_midEv_countP_zero (p : BEvent → Bool) (l : List BEvent)
    (hall : l.all midEv = true)
    (hdisj : ∀ e, midEv e = true → p e = false) :
    l.countP p = 0 := by
  refine List.countP_eq_zero.mpr (fun e he => ?_)
  simp only [List.all_eq_true] at hall
  simp [hdisj e (hall e he)]

/-- Trace decomposition of `getInfo`: on every branch the trace is the
open/allocate prelude, the load call, body events only, and the
`finally` release pair. -/
theorem getInfo_trace_decomp (N : Native) (input : List Nat)
    (pw : Option String) :
    ∃ mid : List BEvent,
      (getInfo N input pw).2 =
        BEvent.init (qpdf_wasm_init N)
          :: BEvent.malloc input.length (N.mallocPtr input.length)
          :: BEvent.readMemory (qpdf_wasm_init N)
               (N.mallocPtr input.length) input.length (jsOrNull pw)
          :: (mid ++ [BEvent.free (N.mallocPtr input.length),
                      BEvent.cleanup (qpdf_wasm_init N)])
      ∧ mid.all midEv = true := by
  rcases hrm : qpdf_wasm_read_memory N (qpdf_wasm_init N)
      (N.mallocPtr input.length) input.length (jsOrNull pw) with t | rc
  · exact ⟨[], by simp [getInfo, hrm], rfl⟩
  · rcases hstep1 : (if rc ≠ 0 then
        throwIfError (qpdf_wasm_init N) N.errAfterLoad
      else (Except.ok (), [])) with ⟨res1, evs1⟩
    have he1 : evs1.all midEv = true := by
      have h := throwStep_all midEv (rc ≠ 0) (qpdf_wasm_init N)
        N.errAfterLoad (fun _ => rfl) (fun _ => rfl)
      rw [hstep1] at h
      simpa using h
    rcases res1 with e | u
    · exact ⟨evs1, by simp [getInfo, hrm, hstep1], he1⟩
    · refine ⟨evs1 ++ attrEvents (qpdf_wasm_init N),
        by simp [getInfo, hrm, hstep1], ?_⟩
      simp [List.all_append, he1, attrEvents, midEv]

/-- Trace decomposition of `getInfoKey`: same lifecycle bracket as
`getInfo` around body events only. -/
theorem getInfoKey_trace_decomp (N : Native) (input : List Nat)
    (key : String) (pw : Option String) :
    ∃ mid : List BEvent,
      (getInfoKey N input key pw).2 =
        BEvent.init (qpdf_wasm_init N)
          :: BEvent.malloc input.length (N.mallocPtr input.length)
          :: BEvent.readMemory (qpdf_wasm_init N)
               (N.mallocPtr input.length) input.length (jsOrNull pw)
          :: (mid ++ [BEvent.free (N.mallocPtr input.length),
                      BEvent.cleanup (qpdf_wasm_init N)])
      ∧ mid.all midEv = true := by
  rcases hrm : qpdf_wasm_read_memory N (qpdf_wasm_init N)
      (N.mallocPtr input.length) input.length (jsOrNull pw) with t | rc
  · exact ⟨[], by simp [getInfoKey, hrm], rfl⟩
  · rcases hstep1 : (if rc ≠ 0 then
        throwIfError (qpdf_wasm_init N) N.errAfterLoad
      else (Except.ok (), [])) with ⟨res1, evs1⟩
    have he1 : evs1.all midEv = true := by
      have h := throwStep_all midEv (rc ≠ 0) (qpdf_wasm_init N)
        N.errAfterLoad (fun _ => rfl) (fun _ => rfl)
      rw [hstep1] at h
      simpa using h
    rcases res1 with e | u
    · exact ⟨evs1, by simp [getInfoKey, hrm, hstep1], he1⟩
    · refine ⟨evs1 ++ [BEvent.getInfoKeyCall (qpdf_wasm_init N) key],
        by simp [getInfoKey, hrm, hstep1], ?_⟩
      simp [List.all_append, he1, midEv]

/-- Trace decomposition of `checkPdf`: same lifecycle bracket around
body events only. -/
theorem checkPdf_trace_decomp (N : Native) (input : List Nat)
    (pw : Option String) :
    ∃ mid : List BEvent,
      (checkPdf N input pw).2 =
        BEvent.init (qpdf_wasm_init N)
          :: BEvent.malloc input.length (N.mallocPtr input.length)
          :: BEvent.readMemory (qpdf_wasm_init N)
               (N.mallocPtr input.length) input.length (jsOrNull pw)
          :: (mid ++ [BEvent.free (N.mallocPtr input.length),
                      BEvent.cleanup (qpdf_wasm_init N)])
      ∧ mid.all midEv = true := by
  rcases hrm : qpdf_wasm_read_memory N (qpdf_wasm_init N)
      (N.mallocPtr input.length) input.length (jsOrNull pw) with t | rc
  · exact ⟨[], by simp [checkPdf, hrm], rfl⟩
  · by_cases hrc : rc = 0
    · rcases hck : N.checkRc (qpdf_wasm_init N) with t | crc
      · exact ⟨[BEvent.checkStructure (qpdf_wasm_init N)],
          by simp [checkPdf, hrm, hrc, hck], rfl⟩
      · by_cases hcrc : crc = 0
        · exact ⟨[BEvent.checkStructure (qpdf_wasm_init N)],
            by simp [checkPdf, hrm, hrc, hck, hcrc], rfl⟩
        · exact ⟨[BEvent.checkStructure (qpdf_wasm_init N),
            BEvent.getErrorText (qpdf_wasm_init N)],
            by simp [checkPdf, hrm, hrc, hck, hcrc], rfl⟩
    · exact ⟨[BEvent.getErrorText (qpdf_wasm_init N)],
        by simp [checkPdf, hrm, hrc], rfl⟩

/-- Trace decomposition of `processPdf`: same lifecycle bracket around
body events only, on every success and failure branch. -/
theorem processPdf_trace_decomp (N : Native) (input : List Nat)
    (opts : PdfOptions) :
    ∃ mid : List BEvent,
      (processPdf N input opts).2 =
        BEvent.init (qpdf_wasm_init N)
          :: BEvent.malloc input.length (N.mallocPtr input.length)
          :: BEvent.readMemory (qpdf_wasm_init N)
               (N.mallocPtr input.length) input.length
               (jsOrNull opts.password)
          :: (mid ++ [BEvent.free (N.mallocPtr input.length),
                      BEvent.cleanup (qpdf_wasm_init N)])
      ∧ mid.all midEv = true := by
  rcases hrm : qpdf_wasm_read_memory N (qpdf_wasm_init N)
      (N.mallocPtr input.length) input.length
      (jsOrNull opts.password) with t | rc
  · exact ⟨[], by simp [processPdf, hrm], rfl⟩
  · rcases hstep1 : (if rc ≠ 0 then
        throwIfError (qpdf_wasm_init N) N.errAfterLoad
      else (Except.ok (), [])) with ⟨res1, evs1⟩
    have he1 : evs1.all midEv = true := by
      have h := throwStep_all midEv (rc ≠ 0) (qpdf_wasm_init N)
        N.errAfterLoad (fun _ => rfl) (fun _ => rfl)
      rw [hstep1] at h
      simpa using h
    rcases res1 with e | u
    · exact ⟨evs1, by simp [processPdf, hrm, hstep1], he1⟩
    · rcases hiw : N.initWrite (qpdf_wasm_init N) with t | wrc
      · refine ⟨evs1 ++ [BEvent.initWriteMemory (qpdf_wasm_init N)],
          by simp [processPdf, hrm, hstep1, hiw], ?_⟩
        simp [List.all_append, he1, midEv]
      · rcases hstep2 : (if wrc ≠ 0 then
            throwIfError (qpdf_wasm_init N) N.errAfterInitWrite
          else (Except.ok (), [])) with ⟨res2, evs2⟩
        have he2 : evs2.all midEv = true := by
          have h := throwStep_all midEv (wrc ≠ 0) (qpdf_wasm_init N)
            N.errAfterInitWrite (fun _ => rfl) (fun _ => rfl)
          rw [hstep2] at h
          simpa using h
        rcases res2 with e | u
        · refine ⟨evs1 ++ BEvent.initWriteMemory (qpdf_wasm_init N) :: evs2,
            by simp [processPdf, hrm, hstep1, hiw, hstep2], ?_⟩
          simp [List.all_append, List.all_cons, he1, he2, midEv]
        · rcases hw : N.write (qpdf_wasm_init N) with t | writeRc
          · refine ⟨evs1 ++ BEvent.initWriteMemory (qpdf_wasm_init N)
                :: evs2 ++ setterEventsOf (qpdf_wasm_init N) opts
                ++ [BEvent.write (qpdf_wasm_init N)],
              by simp [processPdf, hrm, hstep1, hiw, hstep2, hw], ?_⟩
            simp [List.all_append, List.all_cons, he1, he2,
              setterEventsOf_all_midEv, midEv]
          · rcases hstep3 : (if writeRc ≠ 0 then
                throwIfError (qpdf_wasm_init N) N.errAfterWrite
              else (Except.ok (), [])) with ⟨res3, evs3⟩
            have he3 : evs3.all midEv = true := by
              have h := throwStep_all midEv (writeRc ≠ 0)
                (qpdf_wasm_init N) N.errAfterWrite
                (fun _ => rfl) (fun _ => rfl)
              rw [hstep3] at h
              simpa using h
            rcases res3 with e | u
            · refine ⟨evs1 ++ BEvent.initWriteMemory (qpdf_wasm_init N)
                  :: evs2 ++ setterEventsOf (qpdf_wasm_init N) opts
                  ++ BEvent.write (qpdf_wasm_init N) :: evs3,
                by simp [processPdf, hrm, hstep1, hiw, hstep2, hw, hstep3],
                ?_⟩
              simp [List.all_append, List.all_cons, he1, he2, he3,
                setterEventsOf_all_midEv, midEv]
            · refine ⟨evs1 ++ BEvent.initWriteMemory (qpdf_wasm_init N)
                  :: evs2 ++ setterEventsOf (qpdf_wasm_init N) opts
                  ++ BEvent.write (qpdf_wasm_init N) :: evs3
                  ++ [BEvent.getBufferLength (qpdf_wasm_init N),
                      BEvent.getBuffer (qpdf_wasm_init N)],
                by simp [processPdf, hrm, hstep1, hiw, hstep2, hw, hstep3],
                ?_⟩
              simp [List.all_append, List.all_cons, he1, he2, he3,
                setterEventsOf_all_midEv, midEv]

/-- Body events are not session-open events. -/
theorem midEv_not_isInitEv : ∀ e, midEv e = true → isInitEv e = false := by
  intro e h
  cases e <;> simp_all [midEv, isInitEv]

/-- Body events are not session-close events. -/
theorem midEv_not_isCleanupEv : ∀ e, midEv e = true → isCleanupEv e = false := by
  intro e h
  cases e <;> simp_all [midEv, isCleanupEv]

/-- Body events are not allocation events. -/
theorem midEv_not_isMallocEv : ∀ e, midEv e = true → isMallocEv e = false := by
  intro e h
  cases e <;> simp_all [midEv, isMallocEv]

/-- Body events are not release events. -/
theorem midEv_not_isFreeEv : ∀ e, midEv e = true → isFreeEv e = false := by
  intro e h
  cases e <;> simp_all [midEv, isFreeEv]

/-- Any trace of the decomposed façade shape satisfies the lifecycle
discipline: one open, one close, one allocation, one release. -/
theorem decomp_lifecycleOk (H L P : Nat) (pw : Option String)
    (mid : List BEvent) (hall : mid.all midEv = true) :
    lifecycleOk
      (BEvent.init H :: BEvent.malloc L P
        :: BEvent.readMemory H P L pw
        :: (mid ++ [BEvent.free P, BEvent.cleanup H])) := by
  have hzero : ∀ p : BEvent → Bool,
      (∀ e, midEv e = true → p e = false) → mid.countP p = 0 :=
    fun p hd => all_midEv_countP_zero p mid hall hd
  have z1 : mid.countP isInitEv = 0 := hzero isInitEv midEv_not_isInitEv
  have z2 : mid.countP isCleanupEv = 0 := hzero isCleanupEv midEv_not_isCleanupEv
  have z3 : mid.countP isMallocEv = 0 := hzero isMallocEv midEv_not_isMallocEv
  have z4 : mid.countP isFreeEv = 0 := hzero isFreeEv midEv_not_isFreeEv
  refine ⟨?_, ?_, ?_, ?_⟩ <;>
    simp [List.countP_cons, List.countP_append, z1, z2, z3, z4,
      isInitEv, isCleanupEv, isMallocEv, isFreeEv]

/-- Claim C1: for every façade operation (`getInfo`, `getInfoKey`,
`processPdf`, `checkPdf`) and every input and oracle behaviour —
including branches on which a boundary call raises — the boundary trace
contains exactly one session open (`_init`), exactly one session close
(`_cleanup`), exactly one input-buffer allocation (`allocBytes` /
`_malloc`) and exactly one release (`_free`). -/
theorem facade_lifecycle_leak_free (N : Native) (input : List Nat)
    (pw : Option String) (key : String) (opts : PdfOptions) :
    lifecycleOk (getInfo N input pw).2 ∧
    lifecycleOk (getInfoKey N input key pw).2 ∧
    lifecycleOk (processPdf N input opts).2 ∧
    lifecycleOk (checkPdf N input pw).2 := by
  obtain ⟨m1, he1, ha1⟩ := getInfo_trace_decomp N input pw
  obtain ⟨m2, he2, ha2⟩ := getInfoKey_trace_decomp N input key pw
  obtain ⟨m3, he3, ha3⟩ := processPdf_trace_decomp N input opts
  obtain ⟨m4, he4, ha4⟩ := checkPdf_trace_decomp N input pw
  rw [he1, he2, he3, he4]
  exact ⟨decomp_lifecycleOk _ _ _ _ m1 ha1, decomp_lifecycleOk _ _ _ _ m2 ha2,
    decomp_lifecycleOk _ _ _ _ m3 ha3, decomp_lifecycleOk _ _ _ _ m4 ha4⟩

/-- A JavaScript `s || fallback` is non-empty whenever the fallback is. -/
theorem jsOrString_ne_empty (s fb : String) (h : fb ≠ "") :
    jsOrString s fb ≠ "" := by
  unfold jsOrString
  split
  · exact h
  · assumption

/-- Claim C2: `checkPdf` reports failures as data, not by raising: a
non-zero load status yields `{ok:false, error:<non-empty load
diagnostic>}` (falling back to "Failed to read PDF" when the session has
no pending text); a successful load followed by a non-zero structural
check status yields `{ok:false, error:<check diagnostic>}`; and full
success yields `{ok:true}`. -/
theorem checkPdf_failure_as_data (N : Native) (input : List Nat)
    (pw : Option String) :
    (∀ rc : Int,
      qpdf_wasm_read_memory N (qpdf_wasm_init N) (N.mallocPtr input.length)
          input.length (jsOrNull pw) = Except.ok rc → rc ≠ 0 →
        (checkPdf N input pw).1 = Except.ok
          { ok := false
            error := some (jsOrString
              (qpdf_wasm_get_error_full_text N.errAfterLoad)
              "Failed to read PDF") } ∧
        jsOrString (qpdf_wasm_get_error_full_text N.errAfterLoad)
          "Failed to read PDF" ≠ "") ∧
    (∀ crc : Int,
      qpdf_wasm_read_memory N (qpdf_wasm_init N) (N.mallocPtr input.length)
          input.length (jsOrNull pw) = Except.ok 0 →
      N.checkRc (qpdf_wasm_init N) = Except.ok crc → crc ≠ 0 →
        (checkPdf N input pw).1 = Except.ok
          { ok := false
            error := some (jsOrString
              (qpdf_wasm_get_error_full_text N.errAfterCheck)
              "PDF check failed") } ∧
        jsOrString (qpdf_wasm_get_error_full_text N.errAfterCheck)
          "PDF check failed" ≠ "") ∧
    (qpdf_wasm_read_memory N (qpdf_wasm_init N) (N.mallocPtr input.length)
          input.length (jsOrNull pw) = Except.ok 0 →
      N.checkRc (qpdf_wasm_init N) = Except.ok 0 →
        (checkPdf N input pw).1 = Except.ok { ok := true, error := none }) := by
  refine ⟨?_, ?_, ?_⟩
  · intro rc h hrc
    refine ⟨?_, jsOrString_ne_empty _ _ (by decide)⟩
    simp [checkPdf, h, hrc]
  · intro crc h hck hcrc
    refine ⟨?_, jsOrString_ne_empty _ _ (by decide)⟩
    simp [checkPdf, h, hck, hcrc]
  · intro h hck
    simp [checkPdf, h, hck]

/-- Witness for C2 at a concrete failing load. -/
theorem checkPdf_failure_as_data_witness :
    (checkPdf loadFailOracle [0] none).1 = Except.ok
      { ok := false
        error := some (jsOrString
          (qpdf_wasm_get_error_full_text loadFailOracle.errAfterLoad)
          "Failed to read PDF") } ∧
    jsOrString (qpdf_wasm_get_error_full_text loadFailOracle.errAfterLoad)
      "Failed to read PDF" ≠ "" :=
  (checkPdf_failure_as_data loadFailOracle [0] none).1 2 rfl (by decide)

/-- Claim C3: `getInfo` on a non-zero load status surfaces the load
error as a raised failure and performs none of the four attribute reads;
only on a zero load status does it return the attribute record read from
the session.  Uses the spec-modelled native contract that a failed load
leaves the session error state set (the wrapped library is a compiled
binary, not source under `src/`). -/
theorem getInfo_load_failure_stops (N : Native) (input : List Nat)
    (pw : Option String) (hc : LoadErrorContract N) :
    (∀ rc : Int,
      qpdf_wasm_read_memory N (qpdf_wasm_init N) (N.mallocPtr input.length)
          input.length (jsOrNull pw) = Except.ok rc → rc ≠ 0 →
        (getInfo N input pw).1 = Except.error (JSException.error
          ("qpdf error: " ++ qpdf_wasm_get_error_full_text N.errAfterLoad)) ∧
        ((getInfo N input pw).2).countP isAttrEv = 0) ∧
    (qpdf_wasm_read_memory N (qpdf_wasm_init N) (N.mallocPtr input.length)
          input.length (jsOrNull pw) = Except.ok 0 →
      (getInfo N input pw).1 =
        Except.ok (readAttrs N (qpdf_wasm_init N))) := by
  constructor
  · intro rc h hrc
    have h' : N.readMemory (qpdf_wasm_init N) (N.mallocPtr input.length)
        input.length ((jsOrNull pw).getD "") = Except.ok rc := h
    have hsome : N.errAfterLoad.isSome = true := hc _ _ _ _ _ h' hrc
    constructor
    · simp [getInfo, throwIfError, qpdf_wasm_has_error, h, hrc, hsome]
    · simp [getInfo, throwIfError, qpdf_wasm_has_error, h, hrc, hsome,
        List.countP_cons, List.countP_append, isAttrEv]
  · intro h
    simp [getInfo, h]

/-- Witness for C3 at a concrete failing load. -/
theorem getInfo_load_failure_stops_witness :
    (getInfo loadFailOracle [0] none).1 = Except.error (JSException.error
      ("qpdf error: " ++
        qpdf_wasm_get_error_full_text loadFailOracle.errAfterLoad)) ∧
    ((getInfo loadFailOracle [0] none).2).countP isAttrEv = 0 :=
  (getInfo_load_failure_stops loadFailOracle [0] none
    (fun _ _ _ _ _ _ _ => rfl)).1 2 rfl (by decide)

/-- Counterexample to C4 as stated: when the native write raises the
bare trap value 7, `processPdf` raises exactly that raw value to the
caller — no diagnostic recovery happens and no normalized message is
substituted. -/
theorem processPdf_raw_trap_counterexample :
    (processPdf writeTrapOracle [0] {}).1 =
      Except.error (JSException.raw 7) := by
  rfl

/-- Claim C4 (amended): when a boundary call raises a raw trap value,
the `finally` block still releases the input buffer and closes the
session exactly once, but the layer makes no attempt to recover a
diagnostic: the raw trap value itself propagates to the caller
unnormalized. -/
theorem processPdf_raw_trap_propagates (N : Native) (input : List Nat)
    (opts : PdfOptions) :
    (∀ t : Int,
      qpdf_wasm_read_memory N (qpdf_wasm_init N) (N.mallocPtr input.length)
          input.length (jsOrNull opts.password) = Except.error t →
        (processPdf N input opts).1 = Except.error (JSException.raw t)) ∧
    (∀ t : Int,
      qpdf_wasm_read_memory N (qpdf_wasm_init N) (N.mallocPtr input.length)
          input.length (jsOrNull opts.password) = Except.ok 0 →
      N.initWrite (qpdf_wasm_init N) = Except.ok 0 →
      N.write (qpdf_wasm_init N) = Except.error t →
        (processPdf N input opts).1 = Except.error (JSException.raw t)) ∧
    ((processPdf N input opts).2).countP isFreeEv = 1 ∧
    ((processPdf N input opts).2).countP isCleanupEv = 1 := by
  refine ⟨?_, ?_, ?_, ?_⟩
  · intro t h
    simp [processPdf, h]
  · intro t h1 h2 h3
    simp [processPdf, h1, h2, h3]
  · obtain ⟨mid, he, ha⟩ := processPdf_trace_decomp N input opts
    rw [he]
    exact (decomp_lifecycleOk _ _ _ _ mid ha).2.2.2
  · obtain ⟨mid, he, ha⟩ := processPdf_trace_decomp N input opts
    rw [he]
    exact (decomp_lifecycleOk _ _ _ _ mid ha).2.1

/-- Witness for C4 (amended) at the concrete write-trap oracle. -/
theorem processPdf_raw_trap_propagates_witness :
    (processPdf writeTrapOracle [0] {}).1 =
      Except.error (JSException.raw 7) ∧
    ((processPdf writeTrapOracle [0] {}).2).countP isFreeEv = 1 ∧
    ((processPdf writeTrapOracle [0] {}).2).countP isCleanupEv = 1 := by
  have h := processPdf_raw_trap_propagates writeTrapOracle [0] {}
  exact ⟨h.2.1 7 rfl rfl rfl, h.2.2.1, h.2.2.2⟩

/-- Body events carry no load-size argument. -/
theorem all_midEv_sizeArg_none (l : List BEvent)
    (h : l.all midEv = true) :
    ∀ a ∈ l, (match a with
      | BEvent.readMemory _ _ size _ => some size
      | _ => none) = (none : Option Nat) := by
  intro a ha
  have := List.all_eq_true.mp h a ha
  cases a <;> simp_all [midEv]

/-- Counterexample to C5 as stated: on an input of 2^32 bytes — whose
64-bit size has a non-zero high half — `checkPdf` performs the load with
the single unsplit size argument 2^32 and completes without any
unsupported-input error. -/
theorem size_passthrough_counterexample :
    (checkPdf okOracle (List.replicate (2 ^ 32) 0) none).1 =
      Except.ok { ok := true, error := none } ∧
    readMemSizeArgs (checkPdf okOracle (List.replicate (2 ^ 32) 0) none).2 =
      [2 ^ 32] ∧
    hiHalf (2 ^ 32) ≠ 0 := by
  have hlen : (List.replicate (2 ^ 32) (0 : Nat)).length = 2 ^ 32 := by
    rw [List.length_replicate]
  generalize hL : List.replicate (2 ^ 32) (0 : Nat) = L
  rw [hL] at hlen
  refine ⟨?_, ?_, by decide⟩
  · simp [checkPdf, okOracle, qpdf_wasm_read_memory]
  · simp [checkPdf, okOracle, qpdf_wasm_read_memory, readMemSizeArgs,
      qpdf_wasm_init, hlen]

/-- Claim C5 (amended): every façade operation passes the input byte
length to the load call as a single unsplit scalar equal to
`pdfBytes.length`, with no high-half check anywhere — for inputs below
4 GiB the 64-bit value's high half is zero, and larger sizes are passed
through without any explicit unsupported-input error. -/
theorem readMemory_size_unsplit_unchecked (N : Native) (input : List Nat)
    (pw : Option String) (key : String) (opts : PdfOptions) :
    readMemSizeArgs (getInfo N input pw).2 = [input.length] ∧
    readMemSizeArgs (getInfoKey N input key pw).2 = [input.length] ∧
    readMemSizeArgs (processPdf N input opts).2 = [input.length] ∧
    readMemSizeArgs (checkPdf N input pw).2 = [input.length] ∧
    (input.length < 2 ^ 32 → hiHalf input.length = 0) := by
  obtain ⟨m1, he1, ha1⟩ := getInfo_trace_decomp N input pw
  obtain ⟨m2, he2, ha2⟩ := getInfoKey_trace_decomp N input key pw
  obtain ⟨m3, he3, ha3⟩ := processPdf_trace_decomp N input opts
  obtain ⟨m4, he4, ha4⟩ := checkPdf_trace_decomp N input pw
  refine ⟨?_, ?_, ?_, ?_, fun h => Nat.div_eq_of_lt h⟩
  · rw [he1]
    simp [readMemSizeArgs, List.filterMap_append]
    exact all_midEv_sizeArg_none m1 ha1
  · rw [he2]
    simp [readMemSizeArgs, List.filterMap_append]
    exact all_midEv_sizeArg_none m2 ha2
  · rw [he3]
    simp [readMemSizeArgs, List.filterMap_append]
    exact all_midEv_sizeArg_none m3 ha3
  · rw [he4]
    simp [readMemSizeArgs, List.filterMap_append]
    exact all_midEv_sizeArg_none m4 ha4

/-- Witness for C5 (amended) at a concrete two-byte input. -/
theorem readMemory_size_unsplit_unchecked_witness :
    readMemSizeArgs (getInfo okOracle [5, 6] none).2 = [2] ∧
    readMemSizeArgs (getInfoKey okOracle [5, 6] "/Author" none).2 = [2] ∧
    readMemSizeArgs (processPdf okOracle [5, 6] {}).2 = [2] ∧
    readMemSizeArgs (checkPdf okOracle [5, 6] none).2 = [2] ∧
    hiHalf ([5, 6] : List Nat).length = 0 := by
  have h := readMemory_size_unsplit_unchecked okOracle [5, 6] none "/Author" {}
  exact ⟨h.1, h.2.1, h.2.2.1, h.2.2.2.1, h.2.2.2.2 (by decide)⟩

/-- Recognizer for events that are not option-setter calls. -/
def noSetterEv : BEvent → Bool
  | BEvent.setLinearize _ _ => false
  | BEvent.setCompress _ _ => false
  | BEvent.setPreserveEnc _ _ => false
  | BEvent.setDetId _ _ => false
  | BEvent.setQdf _ _ => false
  | _ => true

/-- On a successful load and output preparation, the `processPdf` trace
is the fixed prelude, then exactly the option-application block, then a
tail free of setter calls. -/
theorem processPdf_trace_after_ok (N : Native) (input : List Nat)
    (opts : PdfOptions)
    (h1 : qpdf_wasm_read_memory N (qpdf_wasm_init N)
        (N.mallocPtr input.length) input.length
        (jsOrNull opts.password) = Except.ok 0)
    (h2 : N.initWrite (qpdf_wasm_init N) = Except.ok 0) :
    ∃ tail : List BEvent,
      (processPdf N input opts).2 =
        BEvent.init (qpdf_wasm_init N)
          :: BEvent.malloc input.length (N.mallocPtr input.length)
          :: BEvent.readMemory (qpdf_wasm_init N)
               (N.mallocPtr input.length) input.length
               (jsOrNull opts.password)
          :: BEvent.initWriteMemory (qpdf_wasm_init N)
          :: (setterEventsOf (qpdf_wasm_init N) opts ++ tail)
      ∧ tail.all noSetterEv = true := by
  rcases hw : N.write (qpdf_wasm_init N) with t | writeRc
  · refine ⟨[BEvent.write (qpdf_wasm_init N),
      BEvent.free (N.mallocPtr input.length),
      BEvent.cleanup (qpdf_wasm_init N)],
      by simp [processPdf, h1, h2, hw], rfl⟩
  · rcases hstep3 : (if writeRc ≠ 0 then
        throwIfError (qpdf_wasm_init N) N.errAfterWrite
      else (Except.ok (), [])) with ⟨res3, evs3⟩
    have he3 : evs3.all noSetterEv = true := by
      have h := throwStep_all noSetterEv (writeRc ≠ 0) (qpdf_wasm_init N)
        N.errAfterWrite (fun _ => rfl) (fun _ => rfl)
      rw [hstep3] at h
      simpa using h
    rcases res3 with e | u
    · refine ⟨BEvent.write (qpdf_wasm_init N) :: evs3
        ++ [BEvent.free (N.mallocPtr input.length),
            BEvent.cleanup (qpdf_wasm_init N)],
        by simp [processPdf, h1, h2, hw, hstep3], ?_⟩
      simp [List.all_append, List.all_cons, he3, noSetterEv]
    · refine ⟨BEvent.write (qpdf_wasm_init N) :: evs3
        ++ [BEvent.getBufferLength (qpdf_wasm_init N),
            BEvent.getBuffer (qpdf_wasm_init N),
            BEvent.free (N.mallocPtr input.length),
            BEvent.cleanup (qpdf_wasm_init N)],
        by simp [processPdf, h1, h2, hw, hstep3], ?_⟩
      simp [List.all_append, List.all_cons, he3, noSetterEv]

/-- The option-application block contains, for each of the five fields,
exactly one matching setter call when the field is present and none when
it is absent. -/
theorem setterEventsOf_counts (handle : Nat) (o : PdfOptions) :
    (setterEventsOf handle o).countP isSetLinearizeEv =
      (if o.linearize.isSome then 1 else 0) ∧
    (setterEventsOf handle o).countP isSetCompressEv =
      (if o.compress.isSome then 1 else 0) ∧
    (setterEventsOf handle o).countP isSetPreserveEncEv =
      (if o.preserveEncryption.isSome then 1 else 0) ∧
    (setterEventsOf handle o).countP isSetDetIdEv =
      (if o.deterministicId.isSome then 1 else 0) ∧
    (setterEventsOf handle o).countP isSetQdfEv =
      (if o.qdfMode.isSome then 1 else 0) := by
  unfold setterEventsOf
  rcases o.linearize with _ | b1 <;> rcases o.compress with _ | b2 <;>
    rcases o.preserveEncryption with _ | b3 <;>
    rcases o.deterministicId with _ | b4 <;>
    rcases o.qdfMode with _ | b5 <;>
    simp [List.countP_append, List.countP_cons, isSetLinearizeEv,
      isSetCompressEv, isSetPreserveEncEv, isSetDetIdEv, isSetQdfEv]

/-- A present `linearize` field puts its setter call in the block. -/
theorem setterEventsOf_mem_linearize (handle : Nat) (o : PdfOptions)
    (b : Bool) (hb : o.linearize = some b) :
    BEvent.setLinearize handle (if b then 1 else 0) ∈
      setterEventsOf handle o := by
  unfold setterEventsOf
  simp [hb, List.mem_append]

/-- A present `compress` field puts its setter call in the block. -/
theorem setterEventsOf_mem_compress (handle : Nat) (o : PdfOptions)
    (b : Bool) (hb : o.compress = some b) :
    BEvent.setCompress handle (if b then 1 else 0) ∈
      setterEventsOf handle o := by
  unfold setterEventsOf
  simp [hb, List.mem_append]

/-- A present `preserveEncryption` field puts its setter call in the
block. -/
theorem setterEventsOf_mem_preserveEnc (handle : Nat) (o : PdfOptions)
    (b : Bool) (hb : o.preserveEncryption = some b) :
    BEvent.setPreserveEnc handle (if b then 1 else 0) ∈
      setterEventsOf handle o := by
  unfold setterEventsOf
  simp [hb, List.mem_append]

/-- A present `deterministicId` field puts its setter call in the
block. -/
theorem setterEventsOf_mem_detId (handle : Nat) (o : PdfOptions)
    (b : Bool) (hb : o.deterministicId = some b) :
    BEvent.setDetId handle (if b then 1 else 0) ∈
      setterEventsOf handle o := by
  unfold setterEventsOf
  simp [hb, List.mem_append]

/-- A present `qdfMode` field puts its setter call in the block. -/
theorem setterEventsOf_mem_qdf (handle : Nat) (o : PdfOptions)
    (b : Bool) (hb : o.qdfMode = some b) :
    BEvent.setQdf handle (if b then 1 else 0) ∈
      setterEventsOf handle o := by
  unfold setterEventsOf
  simp [hb, List.mem_append]

/-- Non-setter events are not `setLinearization` calls. -/
theorem noSetter_not_isSetLinearizeEv :
    ∀ e, noSetterEv e = true → isSetLinearizeEv e = false := by
  intro e h
  cases e <;> simp_all [noSetterEv, isSetLinearizeEv]

/-- Non-setter events are not `setCompressStreams` calls. -/
theorem noSetter_not_isSetCompressEv :
    ∀ e, noSetterEv e = true → isSetCompressEv e = false := by
  intro e h
  cases e <;> simp_all [noSetterEv, isSetCompressEv]

/-- Non-setter events are not `setPreserveEncryption` calls. -/
theorem noSetter_not_isSetPreserveEncEv :
    ∀ e, noSetterEv e = true → isSetPreserveEncEv e = false := by
  intro e h
  cases e <;> simp_all [noSetterEv, isSetPreserveEncEv]

/-- Non-setter events are not `setDeterministicId` calls. -/
theorem noSetter_not_isSetDetIdEv :
    ∀ e, noSetterEv e = true → isSetDetIdEv e = false := by
  intro e h
  cases e <;> simp_all [noSetterEv, isSetDetIdEv]

/-- Non-setter events are not `setQdfMode` calls. -/
theorem noSetter_not_isSetQdfEv :
    ∀ e, noSetterEv e = true → isSetQdfEv e = false := by
  intro e h
  cases e <;> simp_all [noSetterEv, isSetQdfEv]

/-- Package a count fact and a membership fact into the
present-iff-called obligation. -/
theorem calledIffPresent_of (tr : List BEvent) (H : Nat)
    (field : Option Bool) (mk : Nat → Nat → BEvent) (isE : BEvent → Bool)
    (hcount : tr.countP isE = (if field.isSome then 1 else 0))
    (hmem : ∀ b, field = some b → mk H (if b then 1 else 0) ∈ tr) :
    calledIffPresent tr H field mk isE := by
  rcases field with _ | b
  · simpa [calledIffPresent] using hcount
  · exact ⟨by simpa using hcount, hmem b rfl⟩

/-- Claim C6: on the path where load and output preparation succeed,
each of the five setter boundary calls of `processPdf` is made exactly
when the corresponding option field is present (not `undefined`), with
the boolean value mapped to `1`/`0`; absent fields trigger no such
boundary call. -/
theorem processPdf_setters_iff_present (N : Native) (input : List Nat)
    (opts : PdfOptions)
    (h1 : qpdf_wasm_read_memory N (qpdf_wasm_init N)
        (N.mallocPtr input.length) input.length
        (jsOrNull opts.password) = Except.ok 0)
    (h2 : N.initWrite (qpdf_wasm_init N) = Except.ok 0) :
    calledIffPresent (processPdf N input opts).2 (qpdf_wasm_init N)
      opts.linearize BEvent.setLinearize isSetLinearizeEv ∧
    calledIffPresent (processPdf N input opts).2 (qpdf_wasm_init N)
      opts.compress BEvent.setCompress isSetCompressEv ∧
    calledIffPresent (processPdf N input opts).2 (qpdf_wasm_init N)
      opts.preserveEncryption BEvent.setPreserveEnc isSetPreserveEncEv ∧
    calledIffPresent (processPdf N input opts).2 (qpdf_wasm_init N)
      opts.deterministicId BEvent.setDetId isSetDetIdEv ∧
    calledIffPresent (processPdf N input opts).2 (qpdf_wasm_init N)
      opts.qdfMode BEvent.setQdf isSetQdfEv := by
  obtain ⟨tail, he, ha⟩ := processPdf_trace_after_ok N input opts h1 h2
  have hz : ∀ p : BEvent → Bool,
      (∀ e, noSetterEv e = true → p e = false) → tail.countP p = 0 := by
    intro p hd
    refine List.countP_eq_zero.mpr (fun e hmem => ?_)
    simp [hd e (List.all_eq_true.mp ha e hmem)]
  obtain ⟨c1, c2, c3, c4, c5⟩ := setterEventsOf_counts (qpdf_wasm_init N) opts
  refine ⟨?_, ?_, ?_, ?_, ?_⟩
  · refine calledIffPresent_of _ _ _ _ _ ?_ ?_
    · rw [he]
      simp [List.countP_cons, List.countP_append, isSetLinearizeEv, c1,
        hz isSetLinearizeEv noSetter_not_isSetLinearizeEv]
    · intro b hb
      rw [he]
      exact List.mem_cons_of_mem _ (List.mem_cons_of_mem _
        (List.mem_cons_of_mem _ (List.mem_cons_of_mem _
          (List.mem_append_left _
            (setterEventsOf_mem_linearize _ _ b hb)))))
  · refine calledIffPresent_of _ _ _ _ _ ?_ ?_
    · rw [he]
      simp [List.countP_cons, List.countP_append, isSetCompressEv, c2,
        hz isSetCompressEv noSetter_not_isSetCompressEv]
    · intro b hb
      rw [he]
      exact List.mem_cons_of_mem _ (List.mem_cons_of_mem _
        (List.mem_cons_of_mem _ (List.mem_cons_of_mem _
          (List.mem_append_left _
            (setterEventsOf_mem_compress _ _ b hb)))))
  · refine calledIffPresent_of _ _ _ _ _ ?_ ?_
    · rw [he]
      simp [List.countP_cons, List.countP_append, isSetPreserveEncEv, c3,
        hz isSetPreserveEncEv noSetter_not_isSetPreserveEncEv]
    · intro b hb
      rw [he]
      exact List.mem_cons_of_mem _ (List.mem_cons_of_mem _
        (List.mem_cons_of_mem _ (List.mem_cons_of_mem _
          (List.mem_append_left _
            (setterEventsOf_mem_preserveEnc _ _ b hb)))))
  · refine calledIffPresent_of _ _ _ _ _ ?_ ?_
    · rw [he]
      simp [List.countP_cons, List.countP_append, isSetDetIdEv, c4,
        hz isSetDetIdEv noSetter_not_isSetDetIdEv]
    · intro b hb
      rw [he]
      exact List.mem_cons_of_mem _ (List.mem_cons_of_mem _
        (List.mem_cons_of_mem _ (List.mem_cons_of_mem _
          (List.mem_append_left _
            (setterEventsOf_mem_detId _ _ b hb)))))
  · refine calledIffPresent_of _ _ _ _ _ ?_ ?_
    · rw [he]
      simp [List.countP_cons, List.countP_append, isSetQdfEv, c5,
        hz isSetQdfEv noSetter_not_isSetQdfEv]
    · intro b hb
      rw [he]
      exact List.mem_cons_of_mem _ (List.mem_cons_of_mem _
        (List.mem_cons_of_mem _ (List.mem_cons_of_mem _
          (List.mem_append_left _
            (setterEventsOf_mem_qdf _ _ b hb)))))

/-- A concrete configuration with three present and two absent fields. -/
def mixedOpts : PdfOptions :=
  { linearize := some true
    preserveEncryption := some false
    qdfMode := some true }

/-- Witness for C6 at a concrete oracle and configuration. -/
theorem processPdf_setters_iff_present_witness :
    calledIffPresent (processPdf okOracle [0] mixedOpts).2
      (qpdf_wasm_init okOracle) mixedOpts.linearize
      BEvent.setLinearize isSetLinearizeEv ∧
    calledIffPresent (processPdf okOracle [0] mixedOpts).2
      (qpdf_wasm_init okOracle) mixedOpts.compress
      BEvent.setCompress isSetCompressEv ∧
    calledIffPresent (processPdf okOracle [0] mixedOpts).2
      (qpdf_wasm_init okOracle) mixedOpts.preserveEncryption
      BEvent.setPreserveEnc isSetPreserveEncEv ∧
    calledIffPresent (processPdf okOracle [0] mixedOpts).2
      (qpdf_wasm_init okOracle) mixedOpts.deterministicId
      BEvent.setDetId isSetDetIdEv ∧
    calledIffPresent (processPdf okOracle [0] mixedOpts).2
      (qpdf_wasm_init okOracle) mixedOpts.qdfMode
      BEvent.setQdf isSetQdfEv :=
  processPdf_setters_iff_present okOracle [0] mixedOpts rfl rfl

/-- Claim C7: on a successfully loaded document, `getInfoKey` yields the
absent value (`null`) when the native library reports the named field
as unset (NULL) or empty, and a loaded session never yields a raised
failure from the metadata fetch — the result is always a normal
return. -/
theorem getInfoKey_absent_not_error (N : Native) (input : List Nat)
    (key : String) (pw : Option String)
    (h1 : qpdf_wasm_read_memory N (qpdf_wasm_init N)
        (N.mallocPtr input.length) input.length
        (jsOrNull pw) = Except.ok 0) :
    ((N.getInfoKey (qpdf_wasm_init N) key = none ∨
      N.getInfoKey (qpdf_wasm_init N) key = some "") →
      (getInfoKey N input key pw).1 = Except.ok none) ∧
    (∃ v : Option String, (getInfoKey N input key pw).1 = Except.ok v) := by
  constructor
  · intro hk
    rcases hk with hk | hk <;> simp [getInfoKey, h1, cwrapString, hk]
  · refine ⟨(if cwrapString (N.getInfoKey (qpdf_wasm_init N) key) = ""
        then none
        else some (cwrapString (N.getInfoKey (qpdf_wasm_init N) key))), ?_⟩
    simp [getInfoKey, h1]

/-- Witness for C7 at a concrete oracle whose Info dictionary has no
entry for the requested key. -/
theorem getInfoKey_absent_not_error_witness :
    (getInfoKey okOracle [0] "/Author" none).1 = Except.ok none ∧
    (∃ v : Option String,
      (getInfoKey okOracle [0] "/Author" none).1 = Except.ok v) := by
  have h := getInfoKey_absent_not_error okOracle [0] "/Author" none rfl
  exact ⟨h.1 (Or.inl rfl), h.2⟩

/-- Claim C8: when `processPdf` succeeds (zero status from load,
output preparation, and write), the returned buffer is a copy of the
session's output buffer of exactly the native-reported length, and —
under the spec-modelled native contract that a successful write leaves
a non-empty serialized document — it is never empty. -/
theorem processPdf_success_nonempty (N : Native) (input : List Nat)
    (opts : PdfOptions) (hc : WriteOutputContract N)
    (h1 : qpdf_wasm_read_memory N (qpdf_wasm_init N)
        (N.mallocPtr input.length) input.length
        (jsOrNull opts.password) = Except.ok 0)
    (h2 : N.initWrite (qpdf_wasm_init N) = Except.ok 0)
    (h3 : N.write (qpdf_wasm_init N) = Except.ok 0) :
    ∃ out : List Nat,
      (processPdf N input opts).1 = Except.ok out ∧
      out.length = N.getBufferLength (qpdf_wasm_init N) ∧
      out ≠ [] := by
  refine ⟨(List.range (N.getBufferLength (qpdf_wasm_init N))).map
      (fun i => N.heap (N.getBufferPtr (qpdf_wasm_init N) + i)),
    by simp [processPdf, h1, h2, h3], by simp, ?_⟩
  have hpos : 0 < N.getBufferLength (qpdf_wasm_init N) :=
    hc (qpdf_wasm_init N) h3
  have : 0 < ((List.range (N.getBufferLength (qpdf_wasm_init N))).map
      (fun i => N.heap (N.getBufferPtr (qpdf_wasm_init N) + i))).length := by
    simpa using hpos
  exact List.length_pos.mp this

/-- Witness for C8 at a concrete all-success oracle reporting a
four-byte output buffer. -/
theorem processPdf_success_nonempty_witness :
    ∃ out : List Nat,
      (processPdf okOracle [0] {}).1 = Except.ok out ∧
      out.length = okOracle.getBufferLength (qpdf_wasm_init okOracle) ∧
      out ≠ [] :=
  processPdf_success_nonempty okOracle [0] {}
    (fun _ _ => by norm_num [okOracle]) rfl rfl rfl

/-- Claim C9: the C glue close call is a safe no-op on a null handle —
`qpdf_wasm_cleanup` invokes the native `qpdf_cleanup` only when the
handle is non-null, so closing a never-opened (null) handle performs no
native call, while a non-null handle is cleaned up exactly once. -/
theorem cleanup_null_handle_noop :
    qpdf_wasm_cleanup 0 = [] ∧
    ∀ h : Nat, h ≠ 0 →
      qpdf_wasm_cleanup h = [NativeCall.qpdf_cleanup h] := by
  constructor
  · rfl
  · intro h hh
    simp [qpdf_wasm_cleanup, hh]

/-- Witness for C9 at the null handle and at handle 5. -/
theorem cleanup_null_handle_noop_witness :
    qpdf_wasm_cleanup 0 = [] ∧
    qpdf_wasm_cleanup 5 = [NativeCall.qpdf_cleanup 5] :=
  ⟨cleanup_null_handle_noop.1, cleanup_null_handle_noop.2 5 (by decide)⟩

/-- Claim C10: passing the empty-string password is indistinguishable
from omitting the password: the JS layer maps `""` to `null`
(`password || null`) and the C glue maps a null password to `""`, so
every façade operation returns the same result and trace either way,
and a null password reaches the native load call as `""`. -/
theorem empty_password_eq_omitted (N : Native) (input : List Nat)
    (key : String) (opts : PdfOptions) :
    getInfo N input (some "") = getInfo N input none ∧
    getInfoKey N input key (some "") = getInfoKey N input key none ∧
    checkPdf N input (some "") = checkPdf N input none ∧
    processPdf N input { opts with password := some "" } =
      processPdf N input { opts with password := none } ∧
    (∀ handle ptr size,
      qpdf_wasm_read_memory N handle ptr size none =
        N.readMemory handle ptr size "") := by
  have hj : jsOrNull (some "") = none := by simp [jsOrNull]
  have hj0 : jsOrNull none = none := rfl
  have hset : ∀ p : Option String,
      setterEventsOf (qpdf_wasm_init N) { opts with password := p } =
        setterEventsOf (qpdf_wasm_init N) opts := fun _ => rfl
  refine ⟨?_, ?_, ?_, ?_, fun _ _ _ => rfl⟩
  · simp [getInfo, hj, hj0]
  · simp [getInfoKey, hj, hj0]
  · simp [checkPdf, hj, hj0]
  · simp [processPdf, hj, hj0, hset]
